import Mathlib

/-!
Verification of `core/bin/external_node/src/node_builder.rs` (mantle-xyz/zksync-era).

The file shallow-embeds `ExternalNodeBuilder` and its `build` method.  Types that
the source file only *uses* (the configuration structs from `zksync_config` and the
layer/service types from `zksync_node_framework`, which live elsewhere in the
repository) are modelled from the spec, as noted in their doc comments.

Rust's `todo!()` macro panics with the message "not yet implemented"; a panic is a
third outcome besides `Ok`/`Err`, so step results are modelled by a three-way
`BuildOutcome` type.  The `err` and `panicked` constructors carry the builder state
reached at the moment of failure: this is a modelling device that records which
`add_layer` calls and which `tracing` log lines had been performed before the
failure (in Rust those side effects have happened even though the builder value is
then dropped).
-/

namespace ZkEN

/-- Rust `std::time::Duration`, kept as a count of milliseconds. -/
structure Duration where
  millis : Nat
deriving DecidableEq, Repr

/-- `Duration::as_millis()` (a `u128`) cast `as u64`, i.e. truncated mod 2^64. -/
def Duration.as_millis_u64 (d : Duration) : Nat :=
  d.millis % (2 ^ 64)

/-- Modelled from the spec: the optional prometheus/metrics sink configuration
(`prometheus_config` of the configuration surface); its fields are opaque to the
builder, which only stores it inside the exporter layer. -/
structure PrometheusConfig where
  listener_port : Nat
deriving DecidableEq, Repr

/-- `zksync_config::configs::api::HealthCheckConfig`, as populated by
`add_healthcheck_layer` (source lines 88-100). -/
structure HealthCheckConfig where
  port : Nat
  slow_time_limit_ms : Option Nat
  hard_time_limit_ms : Option Nat
deriving DecidableEq, Repr

/-- `zksync_config::PostgresConfig`, as populated by `add_pools_layer`
(source lines 45-58). -/
structure PostgresConfig where
  max_connections : Option Nat
  max_connections_master : Option Nat
  acquire_timeout_sec : Option Nat
  statement_timeout_sec : Option Nat
  long_connection_threshold_ms : Option Nat
  slow_query_threshold_ms : Option Nat
  test_server_url : Option String
  test_prover_url : Option String
deriving DecidableEq, Repr

/-- `zksync_config::configs::DatabaseSecrets`, as populated by `add_pools_layer`
(source lines 59-63). -/
structure DatabaseSecrets where
  server_url : Option String
  server_replica_url : Option String
  prover_url : Option String
deriving DecidableEq, Repr

/-- The `config.required` section of `ExternalNodeConfig`: the fields the builder
reads (`main_node_url`, `l2_chain_id`, `healthcheck_port`). -/
structure RequiredENConfig where
  main_node_url : String
  l2_chain_id : Nat
  healthcheck_port : Nat
deriving DecidableEq, Repr

/-- The `config.optional` section: the fields the builder reads.  The threshold
accessors return `Option<Duration>` in Rust. -/
structure OptionalENConfig where
  slow_query_threshold : Option Duration
  main_node_rate_limit_rps : Option Nat
  healthcheck_slow_time_limit : Option Duration
  healthcheck_hard_time_limit : Option Duration
deriving DecidableEq, Repr

/-- The `config.postgres` section: the fields the builder reads
(`max_connections` and the database URL returned by `database_url()`). -/
structure PostgresSection where
  max_connections : Nat
  database_url : String
deriving DecidableEq, Repr

/-- The `config.remote` section: the builder reads `diamond_proxy_addr`
(an L1 address, modelled as a number). -/
structure RemoteENConfig where
  diamond_proxy_addr : Nat
deriving DecidableEq, Repr

/-- The `config.observability` section: `prometheus()` yields the optional
prometheus configuration (absence triggers the documented soft-skip). -/
structure ObservabilityENConfig where
  prometheus : Option PrometheusConfig
deriving DecidableEq, Repr

/-- `crate::config::ExternalNodeConfig`, restricted to the sections the builder
reads (the config module is outside this source file; the section shapes follow
the accesses in `node_builder.rs` and the spec's configuration surface). -/
structure ExternalNodeConfig where
  required : RequiredENConfig
  postgres : PostgresSection
  optional : OptionalENConfig
  observability : ObservabilityENConfig
  remote : RemoteENConfig
deriving DecidableEq, Repr

/-- The layers the builder can add.  Modelled from the spec: each layer is a named
initialization unit; we record the constructor arguments the builder passes so the
data flow from configuration into each layer is visible.  A layer value stands for
the attach logic (and registered tasks) of that layer. -/
inductive Layer where
  | sigintHandler : Layer
  | healthCheck : HealthCheckConfig → Layer
  | prometheusExporter : PrometheusConfig → Layer
  | pools : PostgresConfig → DatabaseSecrets → Bool → Bool → Layer
  | mainNodeClient : String → Option Nat → Nat → Layer
  | postgresMetrics : Layer
  | treeDataFetcher : Nat → Layer
deriving DecidableEq, Repr

/-- True exactly for the prometheus exporter layer. -/
def Layer.isPrometheusExporter : Layer → Bool
  | .prometheusExporter _ => true
  | .sigintHandler => false
  | .healthCheck _ => false
  | .pools _ _ _ _ => false
  | .mainNodeClient _ _ _ => false
  | .postgresMetrics => false
  | .treeDataFetcher _ => false

/-- True exactly for the postgres metrics layer (added by the `Core` component). -/
def Layer.isPostgresMetrics : Layer → Bool
  | .postgresMetrics => true
  | .sigintHandler => false
  | .healthCheck _ => false
  | .prometheusExporter _ => false
  | .pools _ _ _ _ => false
  | .mainNodeClient _ _ _ => false
  | .treeDataFetcher _ => false

/-- True exactly for the tree data fetcher layer (added by `TreeFetcher`). -/
def Layer.isTreeDataFetcher : Layer → Bool
  | .treeDataFetcher _ => true
  | .sigintHandler => false
  | .healthCheck _ => false
  | .prometheusExporter _ => false
  | .pools _ _ _ _ => false
  | .mainNodeClient _ _ _ => false
  | .postgresMetrics => false

/-- Modelled from the spec: `ZkStackServiceBuilder` (zksync_node_framework)
accumulates layers in the order `add_layer` is called; the layers' attach
operations run in exactly that order when the builder is finalized. -/
structure ZkStackServiceBuilder where
  layers : List Layer
deriving DecidableEq, Repr

/-- `ZkStackServiceBuilder::new()`: an empty accumulator. -/
def ZkStackServiceBuilder.new : ZkStackServiceBuilder :=
  ⟨[]⟩

/-- `ZkStackServiceBuilder::add_layer`: appends the layer, preserving order. -/
def ZkStackServiceBuilder.add_layer (b : ZkStackServiceBuilder) (l : Layer) :
    ZkStackServiceBuilder :=
  ⟨b.layers ++ [l]⟩

/-- Modelled from the spec: the finalized `ZkStackService` holds the tasks
registered by every successfully attached layer, in attach order; we record the
attach-ordered layer list, each layer standing for the tasks it registers. -/
structure ZkStackService where
  attached : List Layer
deriving DecidableEq, Repr

/-- The selectable components (`crate::Component`; the enum is declared outside
this file, its variants are those matched in `build`, source lines 144-167).
The spec's `MandatoryCore` is the code's `Core`. -/
inductive Component where
  | HttpApi
  | WsApi
  | Tree
  | TreeApi
  | TreeFetcher
  | Core
deriving DecidableEq, Repr

/-- `ExternalNodeBuilder` (source lines 21-25), plus a `logs` field that records
the ambient `tracing` output emitted while this builder runs (a modelling device
for the side effect on line 109). -/
structure ExternalNodeBuilder where
  node : ZkStackServiceBuilder
  config : ExternalNodeConfig
  logs : List String
deriving DecidableEq, Repr

/-- Outcome of a fallible, possibly panicking step.  `ok` is Rust's `Ok`; `err` is
`Err` (message of the `anyhow` error); `panicked` is a `todo!()` panic.  The
builder carried by `err`/`panicked` is the state at the moment of failure,
recording the side effects already performed. -/
inductive BuildOutcome (α : Type) where
  | ok : α → BuildOutcome α
  | err : ExternalNodeBuilder → String → BuildOutcome α
  | panicked : ExternalNodeBuilder → String → BuildOutcome α
deriving DecidableEq, Repr

/-- True exactly for `ok` outcomes. -/
def BuildOutcome.isOk {α : Type} : BuildOutcome α → Bool
  | .ok _ => true
  | _ => false

/-- True exactly for `err` outcomes. -/
def BuildOutcome.isErr {α : Type} : BuildOutcome α → Bool
  | .err _ _ => true
  | _ => false

/-- True exactly for `panicked` outcomes. -/
def BuildOutcome.isPanicked {α : Type} : BuildOutcome α → Bool
  | .panicked _ _ => true
  | _ => false

/-- Rust's `?` operator (plus panic propagation): continue on `ok`, short-circuit
on `err` and on a panic. -/
def bindStep {α : Type} (r : BuildOutcome ExternalNodeBuilder)
    (f : ExternalNodeBuilder → BuildOutcome α) : BuildOutcome α :=
  match r with
  | .ok b => f b
  | .err b m => .err b m
  | .panicked b m => .panicked b m

/-- The layer list reached by an outcome: for `ok`, the attach-ordered layers of
the finalized service; for `err`/`panicked`, the layers the builder had added when
it failed. -/
def layersOf : BuildOutcome ZkStackService → List Layer
  | .ok s => s.attached
  | .err b _ => b.node.layers
  | .panicked b _ => b.node.layers

/-- The message `todo!()` panics with. -/
def todoMsg : String :=
  "not yet implemented"

/-- `ExternalNodeBuilder::new` (source lines 28-33). -/
def ExternalNodeBuilder.new (config : ExternalNodeConfig) : ExternalNodeBuilder :=
  { node := ZkStackServiceBuilder.new, config := config, logs := [] }

/-- `add_sigint_handler_layer` (source lines 35-38). -/
def ExternalNodeBuilder.add_sigint_handler_layer (self : ExternalNodeBuilder) :
    BuildOutcome ExternalNodeBuilder :=
  .ok { self with node := self.node.add_layer Layer.sigintHandler }

/-- The `PostgresConfig` value constructed in `add_pools_layer`
(source lines 45-58). -/
def pools_postgres_config (cfg : ExternalNodeConfig) : PostgresConfig :=
  { max_connections := some cfg.postgres.max_connections
    max_connections_master := some cfg.postgres.max_connections
    acquire_timeout_sec := none
    statement_timeout_sec := none
    long_connection_threshold_ms := none
    slow_query_threshold_ms := cfg.optional.slow_query_threshold.map Duration.as_millis_u64
    test_server_url := none
    test_prover_url := none }

/-- The `DatabaseSecrets` value constructed in `add_pools_layer`
(source lines 59-63). -/
def pools_database_secrets (cfg : ExternalNodeConfig) : DatabaseSecrets :=
  { server_url := some cfg.postgres.database_url
    server_replica_url := some cfg.postgres.database_url
    prover_url := none }

/-- Modelled from the spec: `PoolsLayerBuilder` (zksync_node_framework) with the
calls the source makes: `empty`, `with_master`, `with_replica`, `build`. -/
structure PoolsLayerBuilder where
  config : PostgresConfig
  secrets : DatabaseSecrets
  master : Bool
  replica : Bool
deriving DecidableEq, Repr

/-- `PoolsLayerBuilder::empty(config, secrets)`. -/
def PoolsLayerBuilder.empty (config : PostgresConfig) (secrets : DatabaseSecrets) :
    PoolsLayerBuilder :=
  { config := config, secrets := secrets, master := false, replica := false }

/-- `PoolsLayerBuilder::with_master`. -/
def PoolsLayerBuilder.with_master (b : PoolsLayerBuilder) (v : Bool) :
    PoolsLayerBuilder :=
  { b with master := v }

/-- `PoolsLayerBuilder::with_replica`. -/
def PoolsLayerBuilder.with_replica (b : PoolsLayerBuilder) (v : Bool) :
    PoolsLayerBuilder :=
  { b with replica := v }

/-- `PoolsLayerBuilder::build`: the resulting pools layer. -/
def PoolsLayerBuilder.build (b : PoolsLayerBuilder) : Layer :=
  Layer.pools b.config b.secrets b.master b.replica

/-- `add_pools_layer` (source lines 40-70). -/
def ExternalNodeBuilder.add_pools_layer (self : ExternalNodeBuilder) :
    BuildOutcome ExternalNodeBuilder :=
  let config := pools_postgres_config self.config
  let secrets := pools_database_secrets self.config
  let pools_layer :=
    (((PoolsLayerBuilder.empty config secrets).with_master true).with_replica true).build
  .ok { self with node := self.node.add_layer pools_layer }

/-- `add_postgres_metrics_layer` (source lines 72-75). -/
def ExternalNodeBuilder.add_postgres_metrics_layer (self : ExternalNodeBuilder) :
    BuildOutcome ExternalNodeBuilder :=
  .ok { self with node := self.node.add_layer Layer.postgresMetrics }

/-- `add_main_node_client_layer` (source lines 77-85). -/
def ExternalNodeBuilder.add_main_node_client_layer (self : ExternalNodeBuilder) :
    BuildOutcome ExternalNodeBuilder :=
  let layer := Layer.mainNodeClient self.config.required.main_node_url
    self.config.optional.main_node_rate_limit_rps self.config.required.l2_chain_id
  .ok { self with node := self.node.add_layer layer }

/-- The `HealthCheckConfig` value constructed in `add_healthcheck_layer`
(source lines 88-100). -/
def healthcheck_config (cfg : ExternalNodeConfig) : HealthCheckConfig :=
  { port := cfg.required.healthcheck_port
    slow_time_limit_ms := cfg.optional.healthcheck_slow_time_limit.map Duration.as_millis_u64
    hard_time_limit_ms := cfg.optional.healthcheck_hard_time_limit.map Duration.as_millis_u64 }

/-- `add_healthcheck_layer` (source lines 87-103). -/
def ExternalNodeBuilder.add_healthcheck_layer (self : ExternalNodeBuilder) :
    BuildOutcome ExternalNodeBuilder :=
  .ok { self with node := self.node.add_layer (Layer.healthCheck (healthcheck_config self.config)) }

/-- The informational note logged when the prometheus configuration is absent
(source line 109). -/
def promSkipNote : String :=
  "No configuration for prometheus exporter, skipping"

/-- `add_prometheus_exporter_layer` (source lines 105-112): adds the exporter
layer when the optional configuration is present, otherwise logs an informational
note and adds nothing; either way the step succeeds. -/
def ExternalNodeBuilder.add_prometheus_exporter_layer (self : ExternalNodeBuilder) :
    BuildOutcome ExternalNodeBuilder :=
  match self.config.observability.prometheus with
  | some prom_config =>
      .ok { self with node := self.node.add_layer (Layer.prometheusExporter prom_config) }
  | none =>
      .ok { self with logs := self.logs ++ [promSkipNote] }

/-- `add_preconditions` (source lines 114-116): the body is `todo!()`, which
panics unconditionally with "not yet implemented". -/
def ExternalNodeBuilder.add_preconditions (self : ExternalNodeBuilder) :
    BuildOutcome ExternalNodeBuilder :=
  .panicked self todoMsg

/-- `add_tree_data_fetcher_layer` (source lines 118-122). -/
def ExternalNodeBuilder.add_tree_data_fetcher_layer (self : ExternalNodeBuilder) :
    BuildOutcome ExternalNodeBuilder :=
  let layer := Layer.treeDataFetcher self.config.remote.diamond_proxy_addr
  .ok { self with node := self.node.add_layer layer }

/-- The sort key of the closure on source lines 137-142: `HttpApi` and `WsApi`
get key 1 (consumers, processed last), every other component key 0. -/
def componentSortKey : Component → Nat
  | .HttpApi => 1
  | .WsApi => 1
  | _ => 0

/-- The in-place sort on source line 137, `sort_unstable_by_key` with
`componentSortKey`.  Rust's `sort_unstable_by_key` gives no stability contract,
but its implementation sorts slices of at most 20 elements by insertion sort,
which is stable; a selection draws from six component variants without duplicates,
so every selection is in that regime, and a stable sort by a two-valued key is
exactly the stable partition below (key-0 elements in input order, then key-1
elements in input order). -/
def sortComponents (components : List Component) : List Component :=
  components.filter (fun c => componentSortKey c == 0)
    ++ components.filter (fun c => componentSortKey c == 1)

/-- The error message of the `anyhow::ensure!` on source lines 150-153. -/
def treeApiErrMsg : String :=
  "Merkle tree API cannot be started without a tree component"

/-- The body of the `match component` dispatch (source lines 145-167), processing
one component against the full (sorted) selection `components`:
`HttpApi`, `WsApi` and `Tree` are `todo!()`; `TreeApi` checks
`components.contains(&Component::Tree)` and adds nothing; `TreeFetcher` adds its
layer; `Core` adds the postgres metrics layer and then hits `todo!()`. -/
def processOne (self : ExternalNodeBuilder) (components : List Component) :
    Component → BuildOutcome ExternalNodeBuilder
  | .HttpApi => .panicked self todoMsg
  | .WsApi => .panicked self todoMsg
  | .Tree => .panicked self todoMsg
  | .TreeApi =>
      if Component.Tree ∈ components then
        .ok self
      else
        .err self treeApiErrMsg
  | .TreeFetcher => self.add_tree_data_fetcher_layer
  | .Core =>
      bindStep self.add_postgres_metrics_layer (fun b => .panicked b todoMsg)

/-- The `for component in &components` loop (source lines 144-168): processes the
remaining components in order, short-circuiting on the first `Err` or panic.
`components` is the full sorted selection (used by the `TreeApi` contains check). -/
def runComponents (components : List Component) :
    ExternalNodeBuilder → List Component → BuildOutcome ExternalNodeBuilder
  | self, [] => .ok self
  | self, c :: rest =>
      bindStep (processOne self components c) (fun b => runComponents components b rest)

/-- `ZkStackServiceBuilder::build` — modelled from the spec: finalization invokes
each accumulated layer's attach in order and collects the registered tasks into a
`ZkStackService`; layer-internal attach failures are outside the core's scope, so
finalization of an accumulated layer list yields the service of those layers. -/
def ZkStackServiceBuilder.build (b : ZkStackServiceBuilder) : BuildOutcome ZkStackService :=
  .ok ⟨b.layers⟩

/-- The tail of `build` after the sort (source lines 144-170): run the loop over
the sorted selection, then finalize via `Ok(self.node.build()?)`.  The
finalization — where layers' attaches run and tasks are collected — is applied
only on the `ok` path. -/
def attachAndFinalize (components : List Component) (self : ExternalNodeBuilder) :
    BuildOutcome ZkStackService :=
  bindStep (runComponents components self components) (fun b => b.node.build)

/-- `ExternalNodeBuilder::build` (source lines 124-171): the five base-layer steps
chained with `?`, then `add_preconditions`, then the sort, the component loop and
the finalization. -/
def ExternalNodeBuilder.build (self : ExternalNodeBuilder) (components : List Component) :
    BuildOutcome ZkStackService :=
  bindStep self.add_sigint_handler_layer fun b =>
  bindStep b.add_healthcheck_layer fun b =>
  bindStep b.add_prometheus_exporter_layer fun b =>
  bindStep b.add_pools_layer fun b =>
  bindStep b.add_main_node_client_layer fun b =>
  bindStep b.add_preconditions fun b =>
  attachAndFinalize (sortComponents components) b

/-- The base layers, in the fixed order `build` adds them: sigint handler,
healthcheck, prometheus exporter (when configured), connection pools,
main-node client. -/
def base_layers (cfg : ExternalNodeConfig) : List Layer :=
  [Layer.sigintHandler, Layer.healthCheck (healthcheck_config cfg)]
    ++ (match cfg.observability.prometheus with
        | some p => [Layer.prometheusExporter p]
        | none => [])
    ++ [Layer.pools (pools_postgres_config cfg) (pools_database_secrets cfg) true true,
        Layer.mainNodeClient cfg.required.main_node_url cfg.optional.main_node_rate_limit_rps
          cfg.required.l2_chain_id]

/-- The log lines emitted during the base steps: only the prometheus soft-skip
note, and only when the prometheus configuration is absent. -/
def base_logs (cfg : ExternalNodeConfig) : List String :=
  match cfg.observability.prometheus with
  | some _ => []
  | none => [promSkipNote]

/-- The builder state reached after the five base-layer steps (the state carried
by the panic that `add_preconditions` raises). -/
def builderAfterBase (cfg : ExternalNodeConfig) : ExternalNodeBuilder :=
  { node := ⟨base_layers cfg⟩, config := cfg, logs := base_logs cfg }

/-- A concrete, complete configuration (prometheus configured), used for concrete
evaluations of `build`. -/
def sampleConfig : ExternalNodeConfig :=
  { required := { main_node_url := "http://127.0.0.1:3050", l2_chain_id := 5000,
                  healthcheck_port := 3081 }
    postgres := { max_connections := 50, database_url := "postgres://localhost/en" }
    optional := { slow_query_threshold := some ⟨100⟩, main_node_rate_limit_rps := some 100,
                  healthcheck_slow_time_limit := none, healthcheck_hard_time_limit := none }
    observability := { prometheus := some ⟨3312⟩ }
    remote := { diamond_proxy_addr := 4660 } }

/-- `sampleConfig` with the optional prometheus configuration absent. -/
def sampleConfigNoProm : ExternalNodeConfig :=
  { sampleConfig with observability := { prometheus := none } }

/-- A concrete fresh builder over `sampleConfig`. -/
def sampleBuilder : ExternalNodeBuilder :=
  ExternalNodeBuilder.new sampleConfig

/-- Spine of every execution of `build`: the five base-layer steps all succeed and
add the base layers in their fixed order, then `add_preconditions` panics, and the
panic propagates through the `?` chain; the sort, the component loop and the
finalization are never reached on any input. -/
theorem build_spine (cfg : ExternalNodeConfig) (comps : List Component) :
    (ExternalNodeBuilder.new cfg).build comps = .panicked (builderAfterBase cfg) todoMsg := by
  cases h : cfg.observability.prometheus <;>
    simp [ExternalNodeBuilder.build, ExternalNodeBuilder.new,
      ExternalNodeBuilder.add_sigint_handler_layer, ExternalNodeBuilder.add_healthcheck_layer,
      ExternalNodeBuilder.add_prometheus_exporter_layer, ExternalNodeBuilder.add_pools_layer,
      ExternalNodeBuilder.add_main_node_client_layer, ExternalNodeBuilder.add_preconditions,
      bindStep, ZkStackServiceBuilder.new, ZkStackServiceBuilder.add_layer,
      builderAfterBase, base_layers, base_logs, h,
      PoolsLayerBuilder.empty, PoolsLayerBuilder.with_master, PoolsLayerBuilder.with_replica,
      PoolsLayerBuilder.build]

/-- Splitting the component loop: running `xs ++ ys` is running `xs` and, if that
succeeded, running `ys` from the reached state; an `Err` or a panic inside `xs`
short-circuits past all of `ys`. -/
theorem runComponents_append (full : List Component) (b : ExternalNodeBuilder)
    (xs ys : List Component) :
    runComponents full b (xs ++ ys)
      = bindStep (runComponents full b xs) (fun b2 => runComponents full b2 ys) := by
  induction xs generalizing b with
  | nil => simp [runComponents, bindStep]
  | cons x xs ih =>
      simp only [List.cons_append, runComponents]
      cases h : processOne b full x <;> simp [bindStep, h, ih]

/-- Claim C1 (code_bug evidence): for the selection `[TreeApi]` (which lacks
`Tree`), `build` does not return the configuration error the claim promises — it
panics at the unimplemented `add_preconditions` with only the base layers added,
and its outcome is not an `Err` at all; the dependency check itself (third
conjunct) would produce exactly that error, but the loop containing it is never
reached. -/
theorem claim_C1_treeapi_check_unreachable :
    (ExternalNodeBuilder.new sampleConfig).build [Component.TreeApi]
        = .panicked (builderAfterBase sampleConfig) todoMsg
    ∧ ((ExternalNodeBuilder.new sampleConfig).build [Component.TreeApi]).isErr = false
    ∧ processOne sampleBuilder [Component.TreeApi] Component.TreeApi
        = .err sampleBuilder treeApiErrMsg :=
  ⟨rfl, rfl, rfl⟩

/-- Claim C2 (code_bug evidence): for the input `[TreeFetcher, Core]` (two tier-0
components, `TreeFetcher` listed first), `build` panics at the unimplemented
`add_preconditions` before the sort ever runs, and neither component's layer is
added — so neither attaches, let alone in order.  The third conjunct shows the
sort, as modelled from the source comparator, would indeed keep the within-tier
input order. -/
theorem claim_C2_no_sort_no_attach :
    (ExternalNodeBuilder.new sampleConfig).build [Component.TreeFetcher, Component.Core]
        = .panicked (builderAfterBase sampleConfig) todoMsg
    ∧ ((builderAfterBase sampleConfig).node.layers.all
        (fun l => !(l.isTreeDataFetcher || l.isPostgresMetrics))) = true
    ∧ sortComponents [Component.TreeFetcher, Component.Core]
        = [Component.TreeFetcher, Component.Core] :=
  ⟨rfl, rfl, rfl⟩

/-- Claim C3 (code_bug evidence): for the input `[HttpApi, TreeFetcher]`, `build`
panics at the unimplemented `add_preconditions`, so the tier-0 component
`TreeFetcher` is never processed (its layer is absent from the state at the
panic) and `HttpApi` never attaches after it.  The third conjunct shows the sort,
as modelled from the source comparator, would put the tier-0 component first. -/
theorem claim_C3_no_tier_processing :
    (ExternalNodeBuilder.new sampleConfig).build [Component.HttpApi, Component.TreeFetcher]
        = .panicked (builderAfterBase sampleConfig) todoMsg
    ∧ ((builderAfterBase sampleConfig).node.layers.all (fun l => !l.isTreeDataFetcher)) = true
    ∧ sortComponents [Component.HttpApi, Component.TreeFetcher]
        = [Component.TreeFetcher, Component.HttpApi] :=
  ⟨rfl, rfl, rfl⟩

/-- Claim C4: for every configuration and every selection, the layers added by
`build` (up to the point it stops) are exactly the base layers, in the fixed
order sigint handler, healthcheck, prometheus exporter (when configured),
connection pools, main-node client — independent of the selection; in particular
the pools layer precedes the main-node client layer. -/
theorem claim_C4_base_layers_fixed_order (cfg : ExternalNodeConfig) (comps : List Component) :
    layersOf ((ExternalNodeBuilder.new cfg).build comps)
      = [Layer.sigintHandler, Layer.healthCheck (healthcheck_config cfg)]
        ++ (match cfg.observability.prometheus with
            | some p => [Layer.prometheusExporter p]
            | none => [])
        ++ [Layer.pools (pools_postgres_config cfg) (pools_database_secrets cfg) true true,
            Layer.mainNodeClient cfg.required.main_node_url
              cfg.optional.main_node_rate_limit_rps cfg.required.l2_chain_id] := by
  rw [build_spine]
  rfl

/-- Claim C5 (code_bug evidence): the dispatch arms for `HttpApi`, `WsApi` and
`Tree` are unimplemented placeholders (`todo!()`), and the `Core` arm adds the
postgres metrics layer and then hits its own `todo!()`; moreover `build` itself
panics at the unimplemented `add_preconditions` before processing any component
(final conjunct, selection `[Core]`). -/
theorem claim_C5_dispatch_placeholders :
    processOne sampleBuilder
        [Component.HttpApi, Component.WsApi, Component.Tree, Component.TreeApi,
          Component.TreeFetcher, Component.Core] Component.HttpApi
      = .panicked sampleBuilder todoMsg
    ∧ processOne sampleBuilder
        [Component.HttpApi, Component.WsApi, Component.Tree, Component.TreeApi,
          Component.TreeFetcher, Component.Core] Component.WsApi
      = .panicked sampleBuilder todoMsg
    ∧ processOne sampleBuilder
        [Component.HttpApi, Component.WsApi, Component.Tree, Component.TreeApi,
          Component.TreeFetcher, Component.Core] Component.Tree
      = .panicked sampleBuilder todoMsg
    ∧ processOne sampleBuilder
        [Component.HttpApi, Component.WsApi, Component.Tree, Component.TreeApi,
          Component.TreeFetcher, Component.Core] Component.Core
      = .panicked { sampleBuilder with
          node := sampleBuilder.node.add_layer Layer.postgresMetrics } todoMsg
    ∧ (ExternalNodeBuilder.new sampleConfig).build [Component.Core]
      = .panicked (builderAfterBase sampleConfig) todoMsg :=
  ⟨rfl, rfl, rfl, rfl, rfl⟩

/-- Claim C6 (code_bug evidence): with the prometheus configuration absent, the
exporter step itself succeeds — it adds no layer, only logs the informational
note — and the build proceeds through the remaining base steps (pools and client
are added after it); but `build` then panics at the unimplemented
`add_preconditions` instead of succeeding. -/
theorem claim_C6_prometheus_soft_skip_but_build_panics :
    ExternalNodeBuilder.add_prometheus_exporter_layer (ExternalNodeBuilder.new sampleConfigNoProm)
        = .ok { ExternalNodeBuilder.new sampleConfigNoProm with logs := [promSkipNote] }
    ∧ (ExternalNodeBuilder.new sampleConfigNoProm).build []
        = .panicked (builderAfterBase sampleConfigNoProm) todoMsg
    ∧ ((builderAfterBase sampleConfigNoProm).node.layers.all
        (fun l => !l.isPrometheusExporter)) = true
    ∧ (builderAfterBase sampleConfigNoProm).logs = [promSkipNote]
    ∧ ((ExternalNodeBuilder.new sampleConfigNoProm).build []).isOk = false :=
  ⟨rfl, rfl, rfl, rfl, rfl⟩

/-- Claim C7 (code_bug evidence): for the selection `[Core, TreeFetcher, HttpApi]`
(the spec's `MandatoryCore` is the code's `Core`) with a complete valid
configuration, `build` does not return a service: it panics at the unimplemented
`add_preconditions` right after the base layers.  The sort, as modelled from the
source comparator, would order the selection as the claim describes (third
conjunct). -/
theorem claim_C7_scenario_panics :
    (ExternalNodeBuilder.new sampleConfig).build
        [Component.Core, Component.TreeFetcher, Component.HttpApi]
      = .panicked (builderAfterBase sampleConfig) todoMsg
    ∧ ((ExternalNodeBuilder.new sampleConfig).build
        [Component.Core, Component.TreeFetcher, Component.HttpApi]).isOk = false
    ∧ sortComponents [Component.Core, Component.TreeFetcher, Component.HttpApi]
      = [Component.Core, Component.TreeFetcher, Component.HttpApi] :=
  ⟨rfl, rfl, rfl⟩

/-- Claim C8: for every builder state and every selection containing both
`TreeApi` and `Tree`, processing the subsumed `TreeApi` component performs the
dependency validation only and returns the builder unchanged — no layer is added
on its behalf. -/
theorem claim_C8_treeapi_subsumed (b : ExternalNodeBuilder) (comps : List Component)
    (_hApi : Component.TreeApi ∈ comps) (hTree : Component.Tree ∈ comps) :
    processOne b comps Component.TreeApi = .ok b := by
  simp [processOne, hTree]

/-- Witness for claim C8 at the concrete selection `[Tree, TreeApi]`. -/
theorem claim_C8_witness :
    Component.TreeApi ∈ [Component.Tree, Component.TreeApi]
    ∧ Component.Tree ∈ [Component.Tree, Component.TreeApi]
    ∧ processOne sampleBuilder [Component.Tree, Component.TreeApi] Component.TreeApi
        = .ok sampleBuilder :=
  ⟨by decide, by decide,
    claim_C8_treeapi_subsumed sampleBuilder [Component.Tree, Component.TreeApi]
      (by decide) (by decide)⟩

/-- Claim C9: if the components before `c` all process successfully and `c`'s own
step returns an error, then the whole loop returns exactly that error — the
components after `c` are never processed, the state returned is the one at the
error (no later layer added), and the finalization (`node.build()`, where layers
attach and tasks are collected) is never applied, so no task exists to run.  The
base-layer steps and `add_preconditions` short-circuit through the same
`bindStep`; the base steps are infallible by construction and `add_preconditions`
panics rather than erring, so per-component steps are the only error source. -/
theorem claim_C9_error_short_circuit
    (b bOk bErr : ExternalNodeBuilder) (pre rest : List Component) (c : Component) (m : String)
    (h1 : runComponents (pre ++ c :: rest) b pre = .ok bOk)
    (h2 : processOne bOk (pre ++ c :: rest) c = .err bErr m) :
    runComponents (pre ++ c :: rest) b (pre ++ c :: rest) = .err bErr m
    ∧ attachAndFinalize (pre ++ c :: rest) b = .err bErr m := by
  have hrun : runComponents (pre ++ c :: rest) b (pre ++ c :: rest) = .err bErr m := by
    rw [runComponents_append, h1]
    simp [bindStep, runComponents, h2]
  exact ⟨hrun, by simp [attachAndFinalize, hrun, bindStep]⟩

/-- Witness for claim C9: in the sorted selection `[TreeApi, TreeFetcher]`
without `Tree`, the `TreeApi` step errs immediately, and the loop and the
finalization both return that error with the builder unchanged — `TreeFetcher`'s
layer is never added. -/
theorem claim_C9_witness :
    runComponents [Component.TreeApi, Component.TreeFetcher] sampleBuilder [] = .ok sampleBuilder
    ∧ processOne sampleBuilder [Component.TreeApi, Component.TreeFetcher] Component.TreeApi
        = .err sampleBuilder treeApiErrMsg
    ∧ runComponents [Component.TreeApi, Component.TreeFetcher] sampleBuilder
        [Component.TreeApi, Component.TreeFetcher] = .err sampleBuilder treeApiErrMsg
    ∧ attachAndFinalize [Component.TreeApi, Component.TreeFetcher] sampleBuilder
        = .err sampleBuilder treeApiErrMsg :=
  ⟨rfl, rfl,
    (claim_C9_error_short_circuit sampleBuilder sampleBuilder sampleBuilder []
      [Component.TreeFetcher] Component.TreeApi treeApiErrMsg rfl rfl).1,
    (claim_C9_error_short_circuit sampleBuilder sampleBuilder sampleBuilder []
      [Component.TreeFetcher] Component.TreeApi treeApiErrMsg rfl rfl).2⟩

/-- Claim C10: for every configuration and every selection, `build` panics with
"not yet implemented" at `add_preconditions`, carrying exactly the state after
the five base-layer steps; it never returns `Ok` and never returns `Err`, and no
component-specific layer (postgres metrics, tree data fetcher) is ever added. -/
theorem claim_C10_build_always_panics (cfg : ExternalNodeConfig) (comps : List Component) :
    (ExternalNodeBuilder.new cfg).build comps = .panicked (builderAfterBase cfg) todoMsg
    ∧ ((ExternalNodeBuilder.new cfg).build comps).isOk = false
    ∧ ((ExternalNodeBuilder.new cfg).build comps).isErr = false
    ∧ ((builderAfterBase cfg).node.layers.all
        (fun l => !(l.isPostgresMetrics || l.isTreeDataFetcher))) = true := by
  refine ⟨build_spine cfg comps, ?_, ?_, ?_⟩
  · rw [build_spine]; rfl
  · rw [build_spine]; rfl
  · cases h : cfg.observability.prometheus <;>
      simp [builderAfterBase, base_layers, h, Layer.isPostgresMetrics, Layer.isTreeDataFetcher]

end ZkEN
